import Mathlib

/-!
Verification of the connection-lifecycle state machine of the
`useFetchEventSource` hook (src/useFetchEventSource.ts).

The hook's mutable refs become fields of a `Session` record; each callback
and caller command of the source becomes a pure function `Session → Session`
(or `Except` for the open-validation callback, which can throw).  The
external fetch-stream collaborator is modelled by a labelled step relation
whose guards encode its contract: transport callbacks fire only for the
in-flight, non-aborted exchange, and in order (open while CONNECTING,
message/close while OPEN).
-/

set_option autoImplicit false

namespace UseFetchEventSource

/-- `export const DefaultRetryInterval = 1000`. -/
def DefaultRetryInterval : Nat := 1000

/-- `enum FetchEventSourceState { CONNECTING, OPEN, CLOSED }` (src/index.ts). -/
inductive FetchEventSourceState where
  | CONNECTING
  | OPEN
  | CLOSED
deriving DecidableEq, Repr

/-- `type FetchEventSourceMessage = { id: string; event: string; data: string;
retry?: number }` (src/index.ts).  `retry := none` is JS `undefined`. -/
structure FetchEventSourceMessage where
  id : String
  event : String
  data : String
  retry : Option Nat
deriving DecidableEq, Repr

/-- The slice of a fetch `Response` the hook inspects in `onopen`:
`response.ok`, `response.status`, and `response.headers.get("content-type")`
(`none` when the header is absent). -/
structure Response where
  ok : Bool
  status : Nat
  contentType : Option String
deriving DecidableEq, Repr

/-- Errors reaching the `.catch` handler: `FetchEventSourceOpenError`
(carries the raw `Response`, as in the class of src/useFetchEventSource.ts)
or any other thrown/transport error, identified by a tag. -/
inductive FetchError where
  | openError (resp : Response)
  | other (tag : String)
deriving DecidableEq, Repr

/-- `number | false` returned by the `onClose` / `onError` policy callbacks:
a retry delay in milliseconds, or `false` ("stop retrying"). -/
inductive RetryDecision where
  | interval (ms : Nat)
  | stop
deriving DecidableEq, Repr

/-- ASCII lower-casing of one character: the fragment of JS
`String.prototype.toLowerCase()` relevant to HTTP header values. -/
def lowerChar (c : Char) : Char :=
  if 65 ≤ c.toNat ∧ c.toNat ≤ 90 then Char.ofNat (c.toNat + 32) else c

/-- `s.toLowerCase()` on the ASCII range. -/
def lowerStr (s : String) : String := ⟨s.data.map lowerChar⟩

/-- The recognized configuration options (`FetchEventSourceConfig` of
src/index.ts) that influence lifecycle behaviour.  `headers` is
`config.fetchRequestInit.headers` viewed as a key lookup; an `Option` field
set to `none` is JS `undefined` (option absent).  The `onOpen` callback may
throw (`Except.error`); `onClose` / `onError` return a `RetryDecision`. -/
structure FetchEventSourceConfig where
  headers : String → Option String := fun _ => none
  openWhenHidden : Option Bool := none
  initiallyOpen : Option Bool := none
  defaultRetryInterval : Option Nat := none
  onOpen : Option (Response → Except FetchError Unit) := none
  onClose : Option (Unit → RetryDecision) := none
  onError : Option (FetchError → Nat → RetryDecision) := none

/-- The delay of the live timer with the given id, if any. -/
def lookupTimer (id : Nat) : List (Nat × Nat) → Option Nat
  | [] => none
  | (i, d) :: rest => if id = i then some d else lookupTimer id rest

/-- `window.clearTimeout(id)` / a timer firing: the timer with that id (if
any) stops being live. -/
def removeTimer (id : Nat) (ts : List (Nat × Nat)) : List (Nat × Nat) :=
  ts.filter (fun t => t.1 != id)

/-- The hook's mutable state: one field per ref / state cell of the source,
plus instrumentation fields observing the externally visible effects
(exchanges started, headers sent, policy invocations). -/
structure Session where
  /-- `readyStateRef`. -/
  readyState : FetchEventSourceState
  /-- `explicitlyOpen` ref. -/
  explicitlyOpen : Bool
  /-- `lastEventId` ref (`none` is JS `null`). -/
  lastEventId : Option String
  /-- `retryInterval` ref. -/
  retryInterval : Nat
  /-- `errorRetries` ref. -/
  errorRetries : Nat
  /-- All live (armed, not yet fired, not cleared) single-shot retry timers
  created by `window.setTimeout`, as (id, delay-ms) pairs, newest first.
  More than one can be live at a time: `_handleRetry` overwrites the
  `retryTimeoutId` ref without `clearTimeout`, leaking the previous one. -/
  timers : List (Nat × Nat)
  /-- The `retryTimeoutId` ref: the id most recently stored by
  `_handleRetry`, or `none` after `_clearRetryTimeout`.  It may be stale
  (its timer already fired).  Browser timeout ids are positive integers, so
  the source's truthiness test `if (retryTimeoutId.current)` coincides with
  a null test; ids here start at 1. -/
  retryTimeoutId : Option Nat
  /-- Fresh-id source for `window.setTimeout`. -/
  nextTimerId : Nat
  /-- `abortController.current !== null`. -/
  hasController : Bool
  /-- The current abort controller's signal has been aborted. -/
  controllerAborted : Bool
  /-- Instrumentation: number of transport exchanges started
  (calls of `_startStream` reaching `fetchEventSource`). -/
  exchangesStarted : Nat
  /-- Instrumentation: the request-header lookup passed to the most recent
  exchange, if any. -/
  lastHeaders : Option (String → Option String)
  /-- `eventMessage` state (last received frame). -/
  eventMessage : Option FetchEventSourceMessage
  /-- `hidden.current`. -/
  hidden : Bool
  /-- Instrumentation: number of invocations of the caller's `onError` policy. -/
  onErrorCalls : Nat
  /-- Instrumentation: number of invocations of the caller's `onClose` policy. -/
  onCloseCalls : Nat

/-- Initial state of the hook's refs at mount. -/
def initSession (cfg : FetchEventSourceConfig) : Session :=
  { readyState := .CLOSED
    explicitlyOpen := cfg.initiallyOpen.getD true
    lastEventId := none
    retryInterval := cfg.defaultRetryInterval.getD DefaultRetryInterval
    errorRetries := 0
    timers := []
    retryTimeoutId := none
    nextTimerId := 1
    hasController := false
    controllerAborted := false
    exchangesStarted := 0
    lastHeaders := none
    eventMessage := none
    hidden := false
    onErrorCalls := 0
    onCloseCalls := 0 }

/-- The retry timer the hook is currently tracking: the delay of the timer
referenced by `retryTimeoutId`, when that timer is still live.  This is the
only timer `_clearRetryTimeout` can cancel; a leaked timer is live in
`timers` but invisible here. -/
def Session.retryTimer (s : Session) : Option Nat :=
  match s.retryTimeoutId with
  | some id => lookupTimer id s.timers
  | none => none

/-- `_clearRetryTimeout`: if the ref holds an id, `window.clearTimeout` it
(the referenced timer, and only it, stops being live) and null the ref. -/
def clearRetryTimeout (s : Session) : Session :=
  match s.retryTimeoutId with
  | some id => { s with timers := removeTimer id s.timers, retryTimeoutId := none }
  | none => s

/-- `retryTimeoutId.current = window.setTimeout(open, ms)` (line 88 of the
source): arm a fresh single-shot timer and overwrite the ref with its id —
with no `clearTimeout`, so a previously armed, still-live timer leaks. -/
def armRetryTimer (ms : Nat) (s : Session) : Session :=
  { s with timers := (s.nextTimerId, ms) :: s.timers,
           retryTimeoutId := some s.nextTimerId,
           nextTimerId := s.nextTimerId + 1 }

/-- `abortController.current?.abort()`: a no-op when no controller exists. -/
def abortCurrent (s : Session) : Session :=
  if s.hasController then { s with controllerAborted := true } else s

/-- `close`: sets `explicitlyOpen = false`, aborts the current exchange,
clears any pending retry timer, and forces `readyState` to CLOSED. -/
def close (s : Session) : Session :=
  let s := { s with explicitlyOpen := false }
  let s := abortCurrent s
  let s := clearRetryTimeout s
  { s with readyState := .CLOSED }

/-- The request-header object built in `_startStream`:
`{ ...(lastEventId.current && { "Last-Event-ID": lastEventId.current }),
   ...(headers || {}) }`.
The caller's headers are spread last, so a caller-supplied key wins; the
`Last-Event-ID` entry is injected only when `lastEventId` is truthy
(non-null and non-empty). -/
def requestHeaders (lastEventId : Option String)
    (callerHeaders : String → Option String) : String → Option String :=
  fun key =>
    match callerHeaders key with
    | some v => some v
    | none =>
      match lastEventId with
      | some eid => if eid ≠ "" ∧ key = "Last-Event-ID" then some eid else none
      | none => none

/-- The synchronous prefix of `_startStream`: fresh `AbortController`,
`readyState := CONNECTING`, header computation, and the hand-off of the
request to the transport (counted by `exchangesStarted`). -/
def startStream (cfg : FetchEventSourceConfig) (s : Session) : Session :=
  { s with
    hasController := true
    controllerAborted := false
    readyState := .CONNECTING
    lastHeaders := some (requestHeaders s.lastEventId cfg.headers)
    exchangesStarted := s.exchangesStarted + 1 }

/-- `open`: sets `explicitlyOpen = true`, then starts a stream only when
`readyState === CLOSED`. -/
def open' (cfg : FetchEventSourceConfig) (s : Session) : Session :=
  let s := { s with explicitlyOpen := true }
  if s.readyState = .CLOSED then startStream cfg s else s

/-- `_handleRetry(err?)`: consults the `onError` policy (error path) or the
`onClose` policy (close path); `false` stops retrying, `undefined` (absent
policy) falls back to the current `retryInterval`; the error-retry counter
is incremented only on the error path; finally a single-shot timer of the
resolved delay is armed. -/
def handleRetry (cfg : FetchEventSourceConfig) (err : Option FetchError)
    (s : Session) : Session :=
  let dec : Option RetryDecision :=
    match err with
    | some e =>
      match cfg.onError with
      | some f => some (f e s.errorRetries)
      | none => none
    | none =>
      match cfg.onClose with
      | some f => some (f ())
      | none => none
  let s :=
    match err with
    | some _ =>
      if cfg.onError.isSome then { s with onErrorCalls := s.onErrorCalls + 1 } else s
    | none =>
      if cfg.onClose.isSome then { s with onCloseCalls := s.onCloseCalls + 1 } else s
  match dec with
  | some .stop => s
  | _ =>
    let ms : Nat :=
      match dec with
      | some (.interval n) => n
      | _ => s.retryInterval
    let s :=
      match err with
      | some _ => { s with errorRetries := s.errorRetries + 1 }
      | none => s
    armRetryTimer ms s

/-- The `onopen` callback: when no caller `onOpen` is supplied, reject with a
`FetchEventSourceOpenError` unless `response.ok` and the content-type header
lower-cases to exactly `text/event-stream`; when `onOpen` is supplied, run it
instead (it alone may throw).  On success: `readyState := OPEN` and
`errorRetries := 0`. -/
def onopen (cfg : FetchEventSourceConfig) (resp : Response) (s : Session) :
    Except FetchError Session :=
  if cfg.onOpen.isNone = true ∧
      (resp.ok = false ∨ resp.contentType.map lowerStr ≠ some "text/event-stream") then
    .error (.openError resp)
  else
    match cfg.onOpen with
    | some f =>
      match f resp with
      | .error e => .error e
      | .ok _ => .ok { s with readyState := .OPEN, errorRetries := 0 }
    | none => .ok { s with readyState := .OPEN, errorRetries := 0 }

/-- The `onmessage` callback: `lastEventId` becomes `null` for an empty frame
id and the frame's id otherwise; `if (ev.retry)` (JS truthiness, so a zero
value is skipped) updates `retryInterval`; the frame is stored as the last
`eventMessage`. -/
def onmessage (ev : FetchEventSourceMessage) (s : Session) : Session :=
  let s := { s with lastEventId := if ev.id = "" then none else some ev.id }
  let s :=
    match ev.retry with
    | some r => if r ≠ 0 then { s with retryInterval := r } else s
    | none => s
  { s with eventMessage := some ev }

/-- The `onclose` callback (remote close without error):
`readyState := CLOSED`, then `_handleRetry()` with no error. -/
def onclose (cfg : FetchEventSourceConfig) (s : Session) : Session :=
  handleRetry cfg none { s with readyState := .CLOSED }

/-- The `.catch` handler of `fetchEventSource` (every transport or thrown
error, including rejections of `onopen`): `readyState := CLOSED`, clear any
pending retry timer, then `_handleRetry(err)`. -/
def catchErr (cfg : FetchEventSourceConfig) (e : FetchError) (s : Session) :
    Session :=
  handleRetry cfg (some e) (clearRetryTimeout { s with readyState := .CLOSED })

/-- The `onVisibilityChange` listener (registered only when
`openWhenHidden === false`): records the new visibility; when hidden, aborts
the exchange and forces CLOSED; when visible, calls `open()` if the session
is still explicitly open. -/
def onVisibilityChange (cfg : FetchEventSourceConfig) (nowHidden : Bool)
    (s : Session) : Session :=
  let s := { s with hidden := nowHidden }
  if nowHidden then
    { abortCurrent s with readyState := .CLOSED }
  else if s.explicitlyOpen then open' cfg s else s

/-- The source's reconfiguration effect reads the ref object `hidden` itself
(not `hidden.current`) in its guard; a ref object is always truthy.  This
constant embeds that truthiness. -/
def hiddenRefTruthy : Bool := true

/-- The reconfiguration effect (dependency array: `input`, header keys and
values, remaining request options).  React runs the previous cleanup (abort
plus clear timer), then the new body:
`if (explicitlyOpen.current === true && !(hidden && config?.openWhenHidden === false)) _startStream()`. -/
def reconfigure (cfg : FetchEventSourceConfig) (s : Session) : Session :=
  let s := clearRetryTimeout (abortCurrent s)
  if s.explicitlyOpen = true ∧
      ¬(hiddenRefTruthy = true ∧ cfg.openWhenHidden = some false) then
    startStream cfg s
  else s

/-- A live retry timer fires: the single-shot timer is spent (removed from
the live set), then the scheduled `open` runs.  Any live timer may fire,
including one leaked by the slot overwrite in `_handleRetry`; the ref keeps
its (now possibly stale) id, exactly as `retryTimeoutId.current` does after
a timer fires. -/
def fireTimer (cfg : FetchEventSourceConfig) (id : Nat) (s : Session) : Session :=
  open' cfg { s with timers := removeTimer id s.timers }

/-- Labels of session transitions: caller commands, a retry timer (by id)
firing, transport callbacks, visibility changes, and reconfiguration. -/
inductive Label where
  | lopen
  | lclose
  | ltimer (id : Nat)
  | lxopenOk (resp : Response)
  | lxopenErr (resp : Response)
  | lxmsg (ev : FetchEventSourceMessage)
  | lxclose
  | lxerr (e : FetchError)
  | lvis (nowHidden : Bool)
  | lreconf
deriving DecidableEq, Repr

/-- An exchange is in flight for the current controller and not cancelled:
only then may the transport deliver callbacks (a cancelled exchange's late
events are discarded by the collaborator). -/
def inflight (s : Session) : Prop :=
  s.hasController = true ∧ s.controllerAborted = false

/-- One transition of the session.  Transport callbacks carry the
collaborator's ordering contract as guards: `onopen` fires while CONNECTING,
`onmessage`/`onclose` while OPEN, errors while not CLOSED, and only for a
live (non-aborted) exchange.  The visibility listener is registered only
when `openWhenHidden === false`. -/
inductive Step (cfg : FetchEventSourceConfig) : Label → Session → Session → Prop where
  | callOpen (s : Session) : Step cfg .lopen s (open' cfg s)
  | callClose (s : Session) : Step cfg .lclose s (close s)
  | timerFire (s : Session) (id d : Nat) :
      lookupTimer id s.timers = some d →
      Step cfg (.ltimer id) s (fireTimer cfg id s)
  | transportOpenOk (s s' : Session) (resp : Response) :
      inflight s → s.readyState = .CONNECTING →
      onopen cfg resp s = .ok s' →
      Step cfg (.lxopenOk resp) s s'
  | transportOpenErr (s : Session) (resp : Response) (e : FetchError) :
      inflight s → s.readyState = .CONNECTING →
      onopen cfg resp s = .error e →
      Step cfg (.lxopenErr resp) s (catchErr cfg e s)
  | transportMsg (s : Session) (ev : FetchEventSourceMessage) :
      inflight s → s.readyState = .OPEN →
      Step cfg (.lxmsg ev) s (onmessage ev s)
  | transportClose (s : Session) :
      inflight s → s.readyState = .OPEN →
      Step cfg .lxclose s (onclose cfg s)
  | transportErr (s : Session) (e : FetchError) :
      inflight s → s.readyState ≠ .CLOSED →
      Step cfg (.lxerr e) s (catchErr cfg e s)
  | visibility (s : Session) (b : Bool) :
      cfg.openWhenHidden = some false →
      Step cfg (.lvis b) s (onVisibilityChange cfg b s)
  | reconf (s : Session) : Step cfg .lreconf s (reconfigure cfg s)

/-- A labelled trace of transitions. -/
inductive Steps (cfg : FetchEventSourceConfig) : List Label → Session → Session → Prop where
  | nil (s : Session) : Steps cfg [] s s
  | cons {l : Label} {ls : List Label} {s t u : Session} :
      Step cfg l s t → Steps cfg ls t u → Steps cfg (l :: ls) s u

/-- A session state actually producible by the hook from its mount state. -/
def Reachable (cfg : FetchEventSourceConfig) (s : Session) : Prop :=
  ∃ ls, Steps cfg ls (initSession cfg) s

/-! ### Helper lemmas on the operations -/

theorem abortCurrent_eq (s : Session) :
    abortCurrent s = { s with controllerAborted := s.controllerAborted || s.hasController } := by
  cases s with
  | mk rs eo lei ri er ts tid nid hc ca es lh em hd oec occ =>
    simp only [abortCurrent]
    cases hc <;> cases ca <;> simp

@[simp] theorem clearRetryTimeout_slot (s : Session) :
    (clearRetryTimeout s).retryTimeoutId = none := by
  cases h : s.retryTimeoutId <;> simp [clearRetryTimeout, h]

@[simp] theorem clearRetryTimeout_readyState (s : Session) :
    (clearRetryTimeout s).readyState = s.readyState := by
  cases h : s.retryTimeoutId <;> simp [clearRetryTimeout, h]

@[simp] theorem clearRetryTimeout_explicitlyOpen (s : Session) :
    (clearRetryTimeout s).explicitlyOpen = s.explicitlyOpen := by
  cases h : s.retryTimeoutId <;> simp [clearRetryTimeout, h]

@[simp] theorem clearRetryTimeout_lastEventId (s : Session) :
    (clearRetryTimeout s).lastEventId = s.lastEventId := by
  cases h : s.retryTimeoutId <;> simp [clearRetryTimeout, h]

@[simp] theorem clearRetryTimeout_retryInterval (s : Session) :
    (clearRetryTimeout s).retryInterval = s.retryInterval := by
  cases h : s.retryTimeoutId <;> simp [clearRetryTimeout, h]

@[simp] theorem clearRetryTimeout_errorRetries (s : Session) :
    (clearRetryTimeout s).errorRetries = s.errorRetries := by
  cases h : s.retryTimeoutId <;> simp [clearRetryTimeout, h]

@[simp] theorem clearRetryTimeout_hasController (s : Session) :
    (clearRetryTimeout s).hasController = s.hasController := by
  cases h : s.retryTimeoutId <;> simp [clearRetryTimeout, h]

@[simp] theorem clearRetryTimeout_controllerAborted (s : Session) :
    (clearRetryTimeout s).controllerAborted = s.controllerAborted := by
  cases h : s.retryTimeoutId <;> simp [clearRetryTimeout, h]

@[simp] theorem clearRetryTimeout_exchangesStarted (s : Session) :
    (clearRetryTimeout s).exchangesStarted = s.exchangesStarted := by
  cases h : s.retryTimeoutId <;> simp [clearRetryTimeout, h]

@[simp] theorem clearRetryTimeout_eventMessage (s : Session) :
    (clearRetryTimeout s).eventMessage = s.eventMessage := by
  cases h : s.retryTimeoutId <;> simp [clearRetryTimeout, h]

@[simp] theorem clearRetryTimeout_hidden (s : Session) :
    (clearRetryTimeout s).hidden = s.hidden := by
  cases h : s.retryTimeoutId <;> simp [clearRetryTimeout, h]

@[simp] theorem clearRetryTimeout_lastHeaders (s : Session) :
    (clearRetryTimeout s).lastHeaders = s.lastHeaders := by
  cases h : s.retryTimeoutId <;> simp [clearRetryTimeout, h]

@[simp] theorem clearRetryTimeout_onErrorCalls (s : Session) :
    (clearRetryTimeout s).onErrorCalls = s.onErrorCalls := by
  cases h : s.retryTimeoutId <;> simp [clearRetryTimeout, h]

@[simp] theorem clearRetryTimeout_onCloseCalls (s : Session) :
    (clearRetryTimeout s).onCloseCalls = s.onCloseCalls := by
  cases h : s.retryTimeoutId <;> simp [clearRetryTimeout, h]

/-- After `_clearRetryTimeout` the hook tracks no retry timer. -/
theorem clearRetryTimeout_retryTimer (s : Session) :
    (clearRetryTimeout s).retryTimer = none := by
  simp [Session.retryTimer]

/-- The freshly armed timer is the one the hook tracks, with the armed
delay. -/
theorem armRetryTimer_retryTimer (ms : Nat) (s : Session) :
    (armRetryTimer ms s).retryTimer = some ms := by
  simp [Session.retryTimer, armRetryTimer, lookupTimer]

theorem close_frame (s : Session) :
    (close s).readyState = .CLOSED ∧
    (close s).explicitlyOpen = false ∧
    (close s).retryTimeoutId = none ∧
    (close s).retryTimer = none ∧
    (close s).controllerAborted = (s.controllerAborted || s.hasController) ∧
    (close s).lastEventId = s.lastEventId ∧
    (close s).retryInterval = s.retryInterval ∧
    (close s).errorRetries = s.errorRetries ∧
    (close s).eventMessage = s.eventMessage ∧
    (close s).exchangesStarted = s.exchangesStarted ∧
    (close s).hasController = s.hasController ∧
    (close s).lastHeaders = s.lastHeaders ∧
    (close s).hidden = s.hidden := by
  simp only [close, abortCurrent_eq]
  cases h : s.retryTimeoutId <;>
    simp [clearRetryTimeout, h, Session.retryTimer]

theorem open_closed_eq {s : Session} (cfg : FetchEventSourceConfig)
    (h : s.readyState = .CLOSED) :
    open' cfg s = startStream cfg { s with explicitlyOpen := true } := by
  simp [open', h]

theorem open_active_eq {s : Session} (cfg : FetchEventSourceConfig)
    (h : ¬s.readyState = .CLOSED) :
    open' cfg s = { s with explicitlyOpen := true } := by
  simp [open', h]

theorem open_explicitlyOpen (cfg : FetchEventSourceConfig) (s : Session) :
    (open' cfg s).explicitlyOpen = true := by
  by_cases h : s.readyState = .CLOSED
  · rw [open_closed_eq cfg h]; rfl
  · rw [open_active_eq cfg h]

theorem handleRetry_err_policy {cfg : FetchEventSourceConfig}
    (e : FetchError) (s : Session) (f : FetchError → Nat → RetryDecision)
    (h : cfg.onError = some f) :
    handleRetry cfg (some e) s =
      (match f e s.errorRetries with
       | .stop => { s with onErrorCalls := s.onErrorCalls + 1 }
       | .interval n =>
         armRetryTimer n { s with onErrorCalls := s.onErrorCalls + 1,
                                  errorRetries := s.errorRetries + 1 }) := by
  simp only [handleRetry, h]
  cases f e s.errorRetries <;> simp [armRetryTimer]

theorem handleRetry_err_noPolicy {cfg : FetchEventSourceConfig}
    (e : FetchError) (s : Session) (h : cfg.onError = none) :
    handleRetry cfg (some e) s =
      armRetryTimer s.retryInterval
        { s with errorRetries := s.errorRetries + 1 } := by
  simp [handleRetry, h, armRetryTimer]

theorem handleRetry_close_policy {cfg : FetchEventSourceConfig}
    (s : Session) (f : Unit → RetryDecision) (h : cfg.onClose = some f) :
    handleRetry cfg none s =
      (match f () with
       | .stop => { s with onCloseCalls := s.onCloseCalls + 1 }
       | .interval n =>
         armRetryTimer n { s with onCloseCalls := s.onCloseCalls + 1 }) := by
  simp only [handleRetry, h]
  cases f () <;> simp [armRetryTimer]

theorem handleRetry_close_noPolicy {cfg : FetchEventSourceConfig}
    (s : Session) (h : cfg.onClose = none) :
    handleRetry cfg none s = armRetryTimer s.retryInterval s := by
  simp [handleRetry, h, armRetryTimer]

theorem handleRetry_frame (cfg : FetchEventSourceConfig) (err : Option FetchError)
    (s : Session) :
    (handleRetry cfg err s).readyState = s.readyState ∧
    (handleRetry cfg err s).explicitlyOpen = s.explicitlyOpen ∧
    (handleRetry cfg err s).lastEventId = s.lastEventId ∧
    (handleRetry cfg err s).retryInterval = s.retryInterval ∧
    (handleRetry cfg err s).hasController = s.hasController ∧
    (handleRetry cfg err s).controllerAborted = s.controllerAborted ∧
    (handleRetry cfg err s).exchangesStarted = s.exchangesStarted ∧
    (handleRetry cfg err s).eventMessage = s.eventMessage ∧
    (handleRetry cfg err s).hidden = s.hidden ∧
    (handleRetry cfg err s).lastHeaders = s.lastHeaders := by
  cases err with
  | some e =>
    cases h : cfg.onError with
    | some f =>
      rw [handleRetry_err_policy e s f h]
      cases f e s.errorRetries <;> simp [armRetryTimer]
    | none =>
      rw [handleRetry_err_noPolicy e s h]
      simp [armRetryTimer]
  | none =>
    cases h : cfg.onClose with
    | some f =>
      rw [handleRetry_close_policy s f h]
      cases f () <;> simp [armRetryTimer]
    | none =>
      rw [handleRetry_close_noPolicy s h]
      simp [armRetryTimer]

theorem handleRetry_close_errorRetries (cfg : FetchEventSourceConfig) (s : Session) :
    (handleRetry cfg none s).errorRetries = s.errorRetries := by
  cases h : cfg.onClose with
  | some f =>
    rw [handleRetry_close_policy s f h]
    cases f () <;> simp [armRetryTimer]
  | none =>
    rw [handleRetry_close_noPolicy s h]
    simp [armRetryTimer]

theorem onopen_ok_eq (cfg : FetchEventSourceConfig) (resp : Response)
    (s s' : Session) (h : onopen cfg resp s = .ok s') :
    s' = { s with readyState := .OPEN, errorRetries := 0 } := by
  unfold onopen at h
  split at h
  · simp at h
  · split at h
    · split at h
      · simp at h
      · simp at h; exact h.symm
    · simp at h; exact h.symm

theorem onopen_default_reject {cfg : FetchEventSourceConfig} (resp : Response)
    (s : Session) (h : cfg.onOpen = none)
    (hbad : resp.ok = false ∨ resp.contentType.map lowerStr ≠ some "text/event-stream") :
    onopen cfg resp s = .error (.openError resp) := by
  unfold onopen
  rw [if_pos ⟨by simp [h], hbad⟩]

theorem onopen_default_accept {cfg : FetchEventSourceConfig} (resp : Response)
    (s : Session) (h : cfg.onOpen = none) (hok : resp.ok = true)
    (hct : resp.contentType.map lowerStr = some "text/event-stream") :
    onopen cfg resp s = .ok { s with readyState := .OPEN, errorRetries := 0 } := by
  unfold onopen
  rw [if_neg]
  · rw [h]
  · rintro ⟨-, h1 | h2⟩
    · rw [hok] at h1; cases h1
    · exact h2 hct

theorem onopen_custom {cfg : FetchEventSourceConfig} (resp : Response)
    (s : Session) (f : Response → Except FetchError Unit) (h : cfg.onOpen = some f) :
    onopen cfg resp s =
      (match f resp with
       | .error e => .error e
       | .ok _ => .ok { s with readyState := .OPEN, errorRetries := 0 }) := by
  unfold onopen
  rw [if_neg (by simp [h])]
  rw [h]

theorem onmessage_eq (ev : FetchEventSourceMessage) (s : Session) :
    onmessage ev s =
      { s with lastEventId := if ev.id = "" then none else some ev.id,
               retryInterval :=
                 match ev.retry with
                 | some r => if r ≠ 0 then r else s.retryInterval
                 | none => s.retryInterval,
               eventMessage := some ev } := by
  simp only [onmessage]
  cases ev.retry with
  | some r => by_cases hr : r = 0 <;> simp [hr]
  | none => simp

theorem onclose_readyState (cfg : FetchEventSourceConfig) (s : Session) :
    (onclose cfg s).readyState = .CLOSED := by
  unfold onclose
  rw [(handleRetry_frame cfg none _).1]

theorem catchErr_readyState (cfg : FetchEventSourceConfig) (e : FetchError)
    (s : Session) : (catchErr cfg e s).readyState = .CLOSED := by
  unfold catchErr
  rw [(handleRetry_frame cfg (some e) _).1]
  simp

theorem onVisibilityChange_hidden_eq (cfg : FetchEventSourceConfig) (s : Session) :
    onVisibilityChange cfg true s =
      { abortCurrent { s with hidden := true } with readyState := .CLOSED } := by
  simp [onVisibilityChange]

theorem onVisibilityChange_visible_open {s : Session} (cfg : FetchEventSourceConfig)
    (h : s.explicitlyOpen = true) :
    onVisibilityChange cfg false s = open' cfg { s with hidden := false } := by
  simp [onVisibilityChange, h]

theorem onVisibilityChange_visible_idle {s : Session} (cfg : FetchEventSourceConfig)
    (h : s.explicitlyOpen = false) :
    onVisibilityChange cfg false s = { s with hidden := false } := by
  simp [onVisibilityChange, h]

theorem reconfigure_start {cfg : FetchEventSourceConfig} {s : Session}
    (hexp : s.explicitlyOpen = true) (howh : cfg.openWhenHidden ≠ some false) :
    reconfigure cfg s = startStream cfg (clearRetryTimeout (abortCurrent s)) := by
  simp only [reconfigure]
  rw [if_pos]
  exact ⟨by rw [clearRetryTimeout_explicitlyOpen, abortCurrent_eq]; exact hexp,
         fun hc => howh hc.2⟩

theorem reconfigure_noStart {cfg : FetchEventSourceConfig} {s : Session}
    (h : ¬(s.explicitlyOpen = true ∧
           ¬(hiddenRefTruthy = true ∧ cfg.openWhenHidden = some false))) :
    reconfigure cfg s = clearRetryTimeout (abortCurrent s) := by
  simp only [reconfigure]
  rw [if_neg]
  intro hcon
  refine h ⟨?_, hcon.2⟩
  have hh := hcon.1
  rw [clearRetryTimeout_explicitlyOpen, abortCurrent_eq] at hh
  exact hh

/-! ### Reachability invariant: a non-CLOSED session is explicitly open -/

/-- Whenever the session is CONNECTING or OPEN, the caller's intent flag is
set (it is cleared only by `close`, which also forces CLOSED). -/
def Inv (s : Session) : Prop :=
  s.readyState ≠ .CLOSED → s.explicitlyOpen = true

theorem step_inv {cfg : FetchEventSourceConfig} {l : Label} {s t : Session}
    (hs : Step cfg l s t) (hi : Inv s) : Inv t := by
  cases hs with
  | callOpen s => intro _; exact open_explicitlyOpen cfg s
  | callClose s =>
    intro hne
    exact absurd (close_frame s).1 hne
  | timerFire s id d hd => intro _; exact open_explicitlyOpen cfg _
  | transportOpenOk s _ resp hin hconn hok =>
    have ht := onopen_ok_eq cfg resp s _ hok
    rw [ht]
    intro _
    exact hi (by rw [hconn]; simp)
  | transportOpenErr s resp e hin hconn herr =>
    intro hne
    exact absurd (catchErr_readyState cfg e s) hne
  | transportMsg s ev hin hop =>
    intro _
    rw [onmessage_eq]
    exact hi (by rw [hop]; simp)
  | transportClose s hin hop =>
    intro hne
    exact absurd (onclose_readyState cfg s) hne
  | transportErr s e hin hne' =>
    intro hne
    exact absurd (catchErr_readyState cfg e s) hne
  | visibility s b hreg =>
    cases b with
    | true =>
      intro hne
      rw [onVisibilityChange_hidden_eq] at hne
      exact absurd rfl hne
    | false =>
      by_cases hexp : s.explicitlyOpen = true
      · rw [onVisibilityChange_visible_open cfg hexp]
        intro _
        exact open_explicitlyOpen cfg _
      · have hexp' : s.explicitlyOpen = false := by
          simpa using hexp
        rw [onVisibilityChange_visible_idle cfg hexp']
        intro hne
        exact hi hne
  | reconf s =>
    by_cases hcond : s.explicitlyOpen = true ∧
        ¬(hiddenRefTruthy = true ∧ cfg.openWhenHidden = some false)
    · rw [reconfigure_start hcond.1 (fun hc => hcond.2 ⟨rfl, hc⟩)]
      intro _
      have h0 : (startStream cfg (clearRetryTimeout (abortCurrent s))).explicitlyOpen
          = (clearRetryTimeout (abortCurrent s)).explicitlyOpen := rfl
      rw [h0, clearRetryTimeout_explicitlyOpen, abortCurrent_eq]
      exact hcond.1
    · rw [reconfigure_noStart hcond]
      intro hne
      have h1 : (clearRetryTimeout (abortCurrent s)).readyState = s.readyState := by
        rw [clearRetryTimeout_readyState, abortCurrent_eq]
      have h2 : (clearRetryTimeout (abortCurrent s)).explicitlyOpen = s.explicitlyOpen := by
        rw [clearRetryTimeout_explicitlyOpen, abortCurrent_eq]
      rw [h2]
      exact hi (by rw [← h1]; exact hne)

theorem steps_inv {cfg : FetchEventSourceConfig} {ls : List Label} {s u : Session}
    (h : Steps cfg ls s u) (hi : Inv s) : Inv u := by
  induction h with
  | nil s => exact hi
  | cons hstep _ ih => exact ih (step_inv hstep hi)

theorem reachable_inv {cfg : FetchEventSourceConfig} {s : Session}
    (h : Reachable cfg s) : Inv s := by
  obtain ⟨ls, hsteps⟩ := h
  exact steps_inv hsteps (fun hne => absurd rfl hne)

/-! ### Additional characterizations used by the claims -/

theorem catchErr_policy {cfg : FetchEventSourceConfig} (e : FetchError)
    (s : Session) (f : FetchError → Nat → RetryDecision)
    (hf : cfg.onError = some f) :
    catchErr cfg e s =
      (match f e s.errorRetries with
       | .stop =>
         { clearRetryTimeout { s with readyState := .CLOSED } with
           onErrorCalls := s.onErrorCalls + 1 }
       | .interval n =>
         armRetryTimer n
           { clearRetryTimeout { s with readyState := .CLOSED } with
             onErrorCalls := s.onErrorCalls + 1,
             errorRetries := s.errorRetries + 1 }) := by
  unfold catchErr
  rw [handleRetry_err_policy e _ f hf]
  have h1 : (clearRetryTimeout
      ({ s with readyState := FetchEventSourceState.CLOSED } : Session)).errorRetries
      = s.errorRetries := (clearRetryTimeout_errorRetries _).trans rfl
  have h2 : (clearRetryTimeout
      ({ s with readyState := FetchEventSourceState.CLOSED } : Session)).onErrorCalls
      = s.onErrorCalls := (clearRetryTimeout_onErrorCalls _).trans rfl
  simp only [h1, h2]

theorem catchErr_noPolicy {cfg : FetchEventSourceConfig} (e : FetchError)
    (s : Session) (hf : cfg.onError = none) :
    catchErr cfg e s =
      armRetryTimer s.retryInterval
        { clearRetryTimeout { s with readyState := .CLOSED } with
          errorRetries := s.errorRetries + 1 } := by
  unfold catchErr
  rw [handleRetry_err_noPolicy e _ hf]
  have h1 : (clearRetryTimeout
      ({ s with readyState := FetchEventSourceState.CLOSED } : Session)).errorRetries
      = s.errorRetries := (clearRetryTimeout_errorRetries _).trans rfl
  have h2 : (clearRetryTimeout
      ({ s with readyState := FetchEventSourceState.CLOSED } : Session)).retryInterval
      = s.retryInterval := (clearRetryTimeout_retryInterval _).trans rfl
  simp only [h1, h2]

theorem onclose_noPolicy {cfg : FetchEventSourceConfig} (s : Session)
    (hf : cfg.onClose = none) :
    onclose cfg s =
      armRetryTimer s.retryInterval { s with readyState := .CLOSED } := by
  unfold onclose
  rw [handleRetry_close_noPolicy _ hf]

/-! ### Concrete fixtures for the witnesses -/

/-- A configuration with no callbacks and `initiallyOpen: false`. -/
def cfgA : FetchEventSourceConfig := { initiallyOpen := some false }

/-- The mounted state under `cfgA`. -/
def sA0 : Session := initSession cfgA

/-- The state right after the caller invokes `open()` on `sA0`: CONNECTING. -/
def sA1 : Session := open' cfgA sA0

/-- A configuration whose caller-supplied headers explicitly carry
`Last-Event-ID`. -/
def cfgB : FetchEventSourceConfig :=
  { headers := fun k => if k = "Last-Event-ID" then some "caller-id" else none }

/-- A session that has previously observed a frame with id `id7`. -/
def sB : Session := { sA0 with lastEventId := some "id7" }

/-! ### Claims -/

/-- C1: for every session, calling `open()` while `readyState` is OPEN or
CONNECTING is a no-op (state unchanged, no new transport exchange started);
calling `open()` while CLOSED sets `explicitlyOpen`, transitions to
CONNECTING, and starts one exchange whose request headers are the
caller-supplied headers merged with an injected `Last-Event-ID` header when
`lastEventId` is set, a caller-supplied `Last-Event-ID` header taking
precedence over the injected one. -/
theorem C1_open_contract (cfg : FetchEventSourceConfig) (s : Session) :
    (Reachable cfg s → (s.readyState = .OPEN ∨ s.readyState = .CONNECTING) →
      open' cfg s = s) ∧
    (s.readyState = .CLOSED →
      (open' cfg s).explicitlyOpen = true ∧
      (open' cfg s).readyState = .CONNECTING ∧
      (open' cfg s).exchangesStarted = s.exchangesStarted + 1 ∧
      (open' cfg s).lastHeaders = some (requestHeaders s.lastEventId cfg.headers)) ∧
    (∀ v, cfg.headers "Last-Event-ID" = some v →
      requestHeaders s.lastEventId cfg.headers "Last-Event-ID" = some v) ∧
    (∀ eid, cfg.headers "Last-Event-ID" = none → s.lastEventId = some eid →
      eid ≠ "" →
      requestHeaders s.lastEventId cfg.headers "Last-Event-ID" = some eid) := by
  refine ⟨?_, ?_, ?_, ?_⟩
  · intro hreach hstate
    have hne : ¬s.readyState = .CLOSED := by
      rcases hstate with h | h <;> rw [h] <;> simp
    have hexp : s.explicitlyOpen = true := reachable_inv hreach hne
    rw [open_active_eq cfg hne]
    cases s
    simp_all
  · intro hclosed
    rw [open_closed_eq cfg hclosed]
    exact ⟨rfl, rfl, rfl, rfl⟩
  · intro v hv
    simp [requestHeaders, hv]
  · intro eid hnone hlast hne
    simp [requestHeaders, hnone, hlast, hne]

/-- Witness for C1: a CONNECTING state reached by one `open()` from the
mount state is left unchanged by a second `open()`; `open()` from CLOSED
goes to CONNECTING; header-merge facts at concrete values. -/
theorem C1_open_contract_witness :
    open' cfgA sA1 = sA1 ∧
    (open' cfgA sA0).readyState = .CONNECTING ∧
    requestHeaders sB.lastEventId cfgB.headers "Last-Event-ID" = some "caller-id" ∧
    requestHeaders sB.lastEventId cfgA.headers "Last-Event-ID" = some "id7" :=
  ⟨(C1_open_contract cfgA sA1).1
      ⟨[Label.lopen], Steps.cons (Step.callOpen sA0) (Steps.nil sA1)⟩
      (Or.inr rfl),
   ((C1_open_contract cfgA sA0).2.1 rfl).2.1,
   (C1_open_contract cfgB sB).2.2.1 "caller-id" (by decide),
   (C1_open_contract cfgA sB).2.2.2 "id7" rfl rfl (by decide)⟩

/-- C3: for every received frame, an empty frame id clears `lastEventId` to
absent and a non-empty id replaces it exactly. -/
theorem C3_lastEventId_update (ev : FetchEventSourceMessage) (s : Session) :
    (onmessage ev s).lastEventId = if ev.id = "" then none else some ev.id := by
  rw [onmessage_eq]

/-- A valid SSE open response (mixed-case content-type). -/
def respGood : Response :=
  { ok := true, status := 200, contentType := some "Text/Event-Stream" }

/-- The transport error that arms the first retry timer of the C2 trace. -/
def errNet : FetchError := .other "neterr"

/-- After a transport error on `sA1`: CLOSED, with retry timer T1
(id 1, 1000 ms) armed. -/
def sT2 : Session := catchErr cfgA errNet sA1

/-- The caller calls `open()` again while T1 is still pending (`open` never
touches the timer). -/
def sT3 : Session := open' cfgA sT2

/-- The reopened exchange validates: OPEN. -/
def sT4 : Session := { sT3 with readyState := .OPEN, errorRetries := 0 }

/-- The server closes the stream: `onclose` arms T2 (id 2), overwriting the
ref that still held T1's id without `clearTimeout` — T1 leaks, still live. -/
def sT5 : Session := onclose cfgA sT4

/-- The caller calls `close()`: `_clearRetryTimeout` cancels only T2, the
timer the ref points at. -/
def sT6 : Session := close sT5

/-- C2 (code bug): along the reachable trace
error → open() → open-ok → remote close → close(), the closed session
(`explicitlyOpen = false`, CLOSED, ref cleared) still has the leaked timer
T1 live; its firing is an enabled step, and taking it starts a new transport
exchange with no caller `open()` — so `close()` did not clear every pending
retry timer and a retry fires after `close()`, against the claim.  The leak
is `_handleRetry`'s `retryTimeoutId.current = window.setTimeout(open, ...)`
(line 88), which overwrites the previous id without `clearTimeout`; the
`onclose` path never clears before re-arming. -/
theorem C2_close_leaked_timer_bug :
    Steps cfgA
      [Label.lopen, Label.lxerr errNet, Label.lopen, Label.lxopenOk respGood,
       Label.lxclose, Label.lclose]
      (initSession cfgA) sT6 ∧
    sT6.explicitlyOpen = false ∧
    sT6.readyState = .CLOSED ∧
    sT6.retryTimeoutId = none ∧
    lookupTimer 1 sT6.timers = some 1000 ∧
    Step cfgA (.ltimer 1) sT6 (fireTimer cfgA 1 sT6) ∧
    (fireTimer cfgA 1 sT6).explicitlyOpen = true ∧
    (fireTimer cfgA 1 sT6).readyState = .CONNECTING ∧
    (fireTimer cfgA 1 sT6).exchangesStarted = sT6.exchangesStarted + 1 := by
  refine ⟨?_, by decide, by decide, by decide, by decide,
          Step.timerFire sT6 1 1000 (by decide), by decide, by decide, by decide⟩
  exact Steps.cons (Step.callOpen sA0)
    (Steps.cons (Step.transportErr sA1 errNet ⟨by decide, by decide⟩ (by decide))
      (Steps.cons (Step.callOpen sT2)
        (Steps.cons (Step.transportOpenOk sT3 sT4 respGood ⟨by decide, by decide⟩
            (by decide) (onopen_default_accept respGood sT3 rfl rfl (by decide)))
          (Steps.cons (Step.transportClose sT4 ⟨by decide, by decide⟩ (by decide))
            (Steps.cons (Step.callClose sT5) (Steps.nil sT6))))))

/-- A frame carrying `retry: 0`. -/
def msgRetryZero : FetchEventSourceMessage :=
  { id := "", event := "", data := "", retry := some 0 }

/-- A frame carrying `retry: 2000` and id `a1`. -/
def msgA : FetchEventSourceMessage :=
  { id := "a1", event := "e", data := "d", retry := some 2000 }

/-- Counterexample for C4 as stated: a frame with a `retry` field whose
value is 0 does *not* update `retryInterval` (the source guards the update
with JS truthiness, `if (ev.retry)`), so `retryInterval` stays 1000. -/
theorem C4_counterexample :
    msgRetryZero.retry = some 0 ∧
    (initSession {}).retryInterval = 1000 ∧
    (onmessage msgRetryZero (initSession {})).retryInterval = 1000 ∧
    (onmessage msgRetryZero (initSession {})).retryInterval ≠ 0 := by
  decide

/-- C4 (amended): a frame carrying a *non-zero* `retry = R` sets
`retryInterval` to R; the stored interval is what both retry-scheduling
paths use when the respective policy is absent, and it persists across
`close`, `open`, remote close and transport errors until a later frame
overrides it. -/
theorem C4_retry_negotiation (cfg : FetchEventSourceConfig)
    (ev : FetchEventSourceMessage) (s : Session) (r : Nat) (e : FetchError) :
    (ev.retry = some r → r ≠ 0 → (onmessage ev s).retryInterval = r) ∧
    (ev.retry = none → (onmessage ev s).retryInterval = s.retryInterval) ∧
    (cfg.onClose = none → (onclose cfg s).retryTimer = some s.retryInterval) ∧
    (cfg.onError = none → (catchErr cfg e s).retryTimer = some s.retryInterval) ∧
    (close s).retryInterval = s.retryInterval ∧
    (open' cfg s).retryInterval = s.retryInterval ∧
    (onclose cfg s).retryInterval = s.retryInterval ∧
    (catchErr cfg e s).retryInterval = s.retryInterval := by
  refine ⟨?_, ?_, ?_, ?_, ?_, ?_, ?_, ?_⟩
  · intro hr hnz
    rw [onmessage_eq]
    simp [hr, hnz]
  · intro hr
    rw [onmessage_eq]
    simp [hr]
  · intro h
    rw [onclose_noPolicy s h]
    exact armRetryTimer_retryTimer _ _
  · intro h
    rw [catchErr_noPolicy e s h]
    exact armRetryTimer_retryTimer _ _
  · exact (close_frame s).2.2.2.2.2.2.1
  · by_cases h : s.readyState = .CLOSED
    · rw [open_closed_eq cfg h]; rfl
    · rw [open_active_eq cfg h]
  · exact (handleRetry_frame cfg none _).2.2.2.1
  · unfold catchErr
    exact ((handleRetry_frame cfg (some e) _).2.2.2.1).trans
      ((clearRetryTimeout_retryInterval _).trans rfl)

/-- Witness for C4 (amended): the frame `{id: "a1", retry: 2000}` sets
`retryInterval` to 2000; with no policies, both a remote close and a
transport error schedule a retry after the current interval. -/
theorem C4_retry_negotiation_witness :
    (onmessage msgA sA0).retryInterval = 2000 ∧
    (onmessage { msgA with retry := none } sA0).retryInterval = sA0.retryInterval ∧
    (onclose cfgA sA0).retryTimer = some 1000 ∧
    (catchErr cfgA (.other "boom") sA0).retryTimer = some 1000 ∧
    (close sA0).retryInterval = sA0.retryInterval :=
  ⟨(C4_retry_negotiation cfgA msgA sA0 2000 (.other "boom")).1 rfl (by decide),
   (C4_retry_negotiation cfgA { msgA with retry := none } sA0 2000
      (.other "boom")).2.1 rfl,
   (C4_retry_negotiation cfgA msgA sA0 2000 (.other "boom")).2.2.1 rfl,
   (C4_retry_negotiation cfgA msgA sA0 2000 (.other "boom")).2.2.2.1 rfl,
   (C4_retry_negotiation cfgA msgA sA0 2000 (.other "boom")).2.2.2.2.1⟩

/-- C5: when the caller's `onError` policy returns the "do not retry"
sentinel, no retry timer is scheduled for that cycle, the session remains
CLOSED, `explicitlyOpen` is unchanged, and the error-retry counter does not
reset (it is unchanged entirely). -/
theorem C5_onError_stop (cfg : FetchEventSourceConfig) (e : FetchError)
    (s : Session) (f : FetchError → Nat → RetryDecision)
    (hf : cfg.onError = some f) (hstop : f e s.errorRetries = .stop) :
    (catchErr cfg e s).retryTimer = none ∧
    (catchErr cfg e s).readyState = .CLOSED ∧
    (catchErr cfg e s).explicitlyOpen = s.explicitlyOpen ∧
    (catchErr cfg e s).errorRetries = s.errorRetries := by
  rw [catchErr_policy e s f hf, hstop]
  refine ⟨?_, ?_, ?_, ?_⟩ <;> simp [Session.retryTimer]

/-- A configuration whose `onError` policy always refuses to retry. -/
def cfgStop : FetchEventSourceConfig :=
  { onError := some (fun _ _ => RetryDecision.stop) }

/-- Witness for C5 at a transport error against `cfgStop`. -/
theorem C5_onError_stop_witness :
    (catchErr cfgStop (.other "boom") sA1).retryTimer = none ∧
    (catchErr cfgStop (.other "boom") sA1).readyState = .CLOSED ∧
    (catchErr cfgStop (.other "boom") sA1).explicitlyOpen = sA1.explicitlyOpen ∧
    (catchErr cfgStop (.other "boom") sA1).errorRetries = sA1.errorRetries :=
  C5_onError_stop cfgStop (.other "boom") sA1 (fun _ _ => RetryDecision.stop)
    rfl rfl

/-- C6: on a remote close without error and no caller `onClose` policy, a
retry is scheduled after exactly the current `retryInterval`; the
error-retry counter is never changed on the close-without-error path (for
any configuration), and is incremented on the error path (whether the
`onError` policy is absent or returns an interval). -/
theorem C6_onclose_retry (cfg : FetchEventSourceConfig) (s : Session)
    (e : FetchError) :
    (cfg.onClose = none →
      (onclose cfg s).retryTimer = some s.retryInterval) ∧
    (onclose cfg s).errorRetries = s.errorRetries ∧
    (cfg.onError = none → (catchErr cfg e s).errorRetries = s.errorRetries + 1) ∧
    (∀ f n, cfg.onError = some f → f e s.errorRetries = .interval n →
      (catchErr cfg e s).errorRetries = s.errorRetries + 1) := by
  refine ⟨?_, ?_, ?_, ?_⟩
  · intro h
    rw [onclose_noPolicy s h]
    exact armRetryTimer_retryTimer _ _
  · exact handleRetry_close_errorRetries cfg _
  · intro h
    rw [catchErr_noPolicy e s h]
    simp [armRetryTimer]
  · intro f n hf hint
    rw [catchErr_policy e s f hf, hint]
    simp [armRetryTimer]

/-- Witness for C6: with no callbacks, a remote close on the CONNECTING
state `sA1` schedules a retry after the default 1000 ms and leaves the
error counter at 0, while a transport error increments it to 1; with a
policy returning an interval, the error counter is also incremented. -/
theorem C6_onclose_retry_witness :
    (onclose cfgA sA1).retryTimer = some 1000 ∧
    (onclose cfgA sA1).errorRetries = sA1.errorRetries ∧
    (catchErr cfgA (.other "boom") sA1).errorRetries = sA1.errorRetries + 1 ∧
    (catchErr { onError := some (fun _ _ => RetryDecision.interval 5) }
      (.other "boom") sA1).errorRetries = sA1.errorRetries + 1 :=
  ⟨(C6_onclose_retry cfgA sA1 (.other "boom")).1 rfl,
   (C6_onclose_retry cfgA sA1 (.other "boom")).2.1,
   (C6_onclose_retry cfgA sA1 (.other "boom")).2.2.1 rfl,
   (C6_onclose_retry { onError := some (fun _ _ => RetryDecision.interval 5) }
      sA1 (.other "boom")).2.2.2 (fun _ _ => RetryDecision.interval 5) 5 rfl rfl⟩

/-- C7: with no caller `onOpen`, the open response is rejected with a
`FetchEventSourceOpenError` carrying the raw response unless the status is
ok and the content-type lower-cases to exactly `text/event-stream`; a
caller-supplied `onOpen` fully replaces that validation (the outcome is
decided by the callback alone, for any response); a successful open yields
OPEN with the error-retry counter reset to 0. -/
theorem C7_onopen_validation (cfg : FetchEventSourceConfig) (resp : Response)
    (s : Session) :
    (cfg.onOpen = none →
      (resp.ok = false ∨ resp.contentType.map lowerStr ≠ some "text/event-stream") →
      onopen cfg resp s = .error (.openError resp)) ∧
    (cfg.onOpen = none → resp.ok = true →
      resp.contentType.map lowerStr = some "text/event-stream" →
      onopen cfg resp s = .ok { s with readyState := .OPEN, errorRetries := 0 }) ∧
    (∀ f, cfg.onOpen = some f →
      onopen cfg resp s =
        (match f resp with
         | .error e => .error e
         | .ok _ => .ok { s with readyState := .OPEN, errorRetries := 0 })) :=
  ⟨fun h hbad => onopen_default_reject resp s h hbad,
   fun h hok hct => onopen_default_accept resp s h hok hct,
   fun f hf => onopen_custom resp s f hf⟩

/-- An open response with a wrong content-type. -/
def respBad : Response :=
  { ok := true, status := 200, contentType := some "text/html" }

/-- A configuration whose `onOpen` accepts anything. -/
def cfgAccept : FetchEventSourceConfig :=
  { onOpen := some (fun _ => Except.ok ()) }

/-- Witness for C7: default validation rejects `text/html` and accepts
`Text/Event-Stream` case-insensitively; a caller `onOpen` that accepts
everything lets the invalid response open the session (no default check). -/
theorem C7_onopen_validation_witness :
    onopen {} respBad sA0 = .error (.openError respBad) ∧
    onopen {} respGood sA0 =
      .ok { sA0 with readyState := .OPEN, errorRetries := 0 } ∧
    onopen cfgAccept respBad sA0 =
      .ok { sA0 with readyState := .OPEN, errorRetries := 0 } :=
  ⟨(C7_onopen_validation {} respBad sA0).1 rfl (Or.inr (by decide)),
   (C7_onopen_validation {} respGood sA0).2.1 rfl rfl (by decide),
   (C7_onopen_validation cfgAccept respBad sA0).2.2 (fun _ => Except.ok ()) rfl⟩

/-- C8: with `openWhenHidden === false`, a transition to hidden aborts the
in-flight exchange and forces CLOSED without invoking the `onError`/`onClose`
policies and without clearing `explicitlyOpen`; a transition back to visible
while still explicitly open calls `open()` again, and (when the session is
CLOSED, as a suspension leaves it) the new exchange's headers carry the
current `lastEventId`. -/
theorem C8_visibility_gate (cfg : FetchEventSourceConfig) (s : Session)
    (howh : cfg.openWhenHidden = some false) :
    ((onVisibilityChange cfg true s).readyState = .CLOSED ∧
     (s.hasController = true →
       (onVisibilityChange cfg true s).controllerAborted = true) ∧
     (onVisibilityChange cfg true s).explicitlyOpen = s.explicitlyOpen ∧
     (onVisibilityChange cfg true s).onErrorCalls = s.onErrorCalls ∧
     (onVisibilityChange cfg true s).onCloseCalls = s.onCloseCalls ∧
     (onVisibilityChange cfg true s).lastEventId = s.lastEventId) ∧
    (s.explicitlyOpen = true →
      onVisibilityChange cfg false s = open' cfg { s with hidden := false }) ∧
    (s.explicitlyOpen = true → s.readyState = .CLOSED →
      (onVisibilityChange cfg false s).lastHeaders =
        some (requestHeaders s.lastEventId cfg.headers)) := by
  refine ⟨⟨?_, ?_, ?_, ?_, ?_, ?_⟩, ?_, ?_⟩
  · rw [onVisibilityChange_hidden_eq]
  · intro h
    rw [onVisibilityChange_hidden_eq, abortCurrent_eq]
    simp [h]
  · rw [onVisibilityChange_hidden_eq, abortCurrent_eq]
  · rw [onVisibilityChange_hidden_eq, abortCurrent_eq]
  · rw [onVisibilityChange_hidden_eq, abortCurrent_eq]
  · rw [onVisibilityChange_hidden_eq, abortCurrent_eq]
  · intro hexp
    exact onVisibilityChange_visible_open cfg hexp
  · intro hexp hclosed
    rw [onVisibilityChange_visible_open cfg hexp,
        open_closed_eq cfg (show ({ s with hidden := false } : Session).readyState
          = .CLOSED from hclosed)]
    rfl

/-- The visibility-gated configuration (`openWhenHidden: false`,
`initiallyOpen: false`). -/
def cfgV : FetchEventSourceConfig :=
  { openWhenHidden := some false, initiallyOpen := some false }

/-- CONNECTING state reached by `open()` under `cfgV`. -/
def sV : Session := open' cfgV (initSession cfgV)

/-- The suspended state: `sV` after the page goes hidden. -/
def sHid : Session := onVisibilityChange cfgV true sV

/-- Witness for C8: hiding suspends `sV` (abort + CLOSED, intent intact, no
policy invoked); becoming visible again reopens and resends headers. -/
theorem C8_visibility_gate_witness :
    sHid.readyState = .CLOSED ∧
    sHid.controllerAborted = true ∧
    sHid.explicitlyOpen = sV.explicitlyOpen ∧
    sHid.onErrorCalls = sV.onErrorCalls ∧
    (onVisibilityChange cfgV false sHid).lastHeaders =
      some (requestHeaders sHid.lastEventId cfgV.headers) :=
  ⟨(C8_visibility_gate cfgV sV rfl).1.1,
   (C8_visibility_gate cfgV sV rfl).1.2.1 (by decide),
   (C8_visibility_gate cfgV sV rfl).1.2.2.1,
   (C8_visibility_gate cfgV sV rfl).1.2.2.2.1,
   (C8_visibility_gate cfgV sHid rfl).2.2 (by decide) (by decide)⟩

/-- C9 (code bug): the reconfiguration effect's guard reads the ref object
`hidden` (always truthy) instead of `hidden.current`, so with
`openWhenHidden: false` a reconfiguration of an explicitly open, *visible*
session aborts the in-flight exchange and clears the timer but never starts
a replacement exchange — against the claim (and the source's own doc
comment on `fetchRequestInit`: "the connection will be closed and
reopened").  With the default `openWhenHidden`, the restart does happen. -/
theorem C9_reconfigure_code_bug :
    sV.explicitlyOpen = true ∧
    sV.hidden = false ∧
    sV.exchangesStarted = 1 ∧
    (reconfigure cfgV sV).controllerAborted = true ∧
    (reconfigure cfgV sV).retryTimer = none ∧
    (reconfigure cfgV sV).exchangesStarted = 1 ∧
    (reconfigure cfgA sA1).exchangesStarted = 2 := by
  decide

/-- C10: `close()` mutates only `readyState`, `explicitlyOpen`, the abort
flag and the retry timer; it leaves `lastEventId`, `retryInterval`,
`errorRetries` and the last `eventMessage` unchanged, so a subsequent
`open()` injects the previously recorded `Last-Event-ID` header and reuses
the previously negotiated retry interval. -/
theorem C10_close_frame (cfg : FetchEventSourceConfig) (s : Session)
    (eid : String) :
    (close s).lastEventId = s.lastEventId ∧
    (close s).retryInterval = s.retryInterval ∧
    (close s).errorRetries = s.errorRetries ∧
    (close s).eventMessage = s.eventMessage ∧
    (close s).readyState = .CLOSED ∧
    (close s).explicitlyOpen = false ∧
    (close s).retryTimer = none ∧
    (close s).controllerAborted = (s.controllerAborted || s.hasController) ∧
    (open' cfg (close s)).lastHeaders =
      some (requestHeaders s.lastEventId cfg.headers) ∧
    (open' cfg (close s)).retryInterval = s.retryInterval ∧
    (s.lastEventId = some eid → eid ≠ "" → cfg.headers "Last-Event-ID" = none →
      requestHeaders s.lastEventId cfg.headers "Last-Event-ID" = some eid) := by
  obtain ⟨h1, h2, h3, h4, h5, h6, h7, h8, h9, h10, h11, h12, h13⟩ := close_frame s
  refine ⟨h6, h7, h8, h9, h1, h2, h4, h5, ?_, ?_, ?_⟩
  · rw [open_closed_eq cfg h1]
    show some (requestHeaders (close s).lastEventId cfg.headers) =
      some (requestHeaders s.lastEventId cfg.headers)
    rw [h6]
  · rw [open_closed_eq cfg h1]
    show (close s).retryInterval = s.retryInterval
    exact h7
  · intro hlast hne hnone
    simp [requestHeaders, hnone, hlast, hne]

/-- Witness for C10 on the session `sB` (which has seen id `id7`): closing
preserves the id and interval, and reopening resends the id. -/
theorem C10_close_frame_witness :
    (close sB).lastEventId = sB.lastEventId ∧
    (close sB).retryInterval = sB.retryInterval ∧
    (open' cfgA (close sB)).lastHeaders =
      some (requestHeaders sB.lastEventId cfgA.headers) ∧
    requestHeaders sB.lastEventId cfgA.headers "Last-Event-ID" = some "id7" :=
  ⟨(C10_close_frame cfgA sB "id7").1,
   (C10_close_frame cfgA sB "id7").2.1,
   (C10_close_frame cfgA sB "id7").2.2.2.2.2.2.2.2.1,
   (C10_close_frame cfgA sB "id7").2.2.2.2.2.2.2.2.2.2 rfl (by decide) rfl⟩

end UseFetchEventSource
